import Mathlib

/-!
Verification of the mcp-deploy document-conversion gateway.

The repository consists of four Python sources under `fastMcp/`:
`improved_mcp_server.py`, `server.py`, `mcp_test.py` and `git_server.py`.
This file shallowly embeds the orchestration logic of those files:
pure helpers become Lean functions, the filesystem becomes an explicit
association list threaded through each operation, Python exceptions become
`Except` errors carrying the filesystem state at raise time, and the
text-extraction backends (MarkItDown / docling) become opaque function
parameters, deterministic in the staged bytes, as the spec's backend
abstraction `convert(path) -> text, fails with ConversionError` prescribes.
-/

namespace MCP

/-! ### Byte strings and small utilities -/

/-- Raw file bytes, each in `0..255`. -/
abbrev Bytes := List Nat

/-- Split a character list at every occurrence of `c`
(model of Python `str.split(sep)` / path component splitting). -/
def splitChar (c : Char) : List Char → List (List Char)
  | [] => [[]]
  | x :: xs =>
    let r := splitChar c xs
    if x == c then [] :: r
    else
      match r with
      | [] => [[x]]
      | h :: t => (x :: h) :: t

/-- Intercalate a separator character between character-list segments. -/
def joinIntercalate (c : Char) : List (List Char) → List Char
  | [] => []
  | [x] => x
  | x :: y :: ys => x ++ c :: joinIntercalate c (y :: ys)

/-- `s.startswith(pre)` on strings. -/
def strStartsWith (s pre : String) : Bool :=
  pre.data.isPrefixOf s.data

/-- Whether a character occurs in a string. -/
def strContainsChar (s : String) (c : Char) : Bool :=
  s.data.contains c

/-- ASCII lowercasing, the fragment of Python `str.lower()` relevant to
file extensions. -/
def strToLower (s : String) : String :=
  String.mk (s.data.map Char.toLower)

/-- `", ".join(l)` (model of the Python joins used in messages). -/
def joinComma : List String → String
  | [] => ""
  | [x] => x
  | x :: y :: ys => x ++ ", " ++ joinComma (y :: ys)

/-- Decimal digit character. -/
def digitChar (n : Nat) : Char :=
  if n = 0 then '0' else if n = 1 then '1' else if n = 2 then '2'
  else if n = 3 then '3' else if n = 4 then '4' else if n = 5 then '5'
  else if n = 6 then '6' else if n = 7 then '7' else if n = 8 then '8' else '9'

/-- Decimal digits of `n`, fuel-driven so the kernel can evaluate it. -/
def natCharsAux : Nat → Nat → List Char
  | 0, _ => []
  | fuel + 1, n => if n < 10 then [digitChar n] else natCharsAux fuel (n / 10) ++ [digitChar (n % 10)]

/-- Render a natural number in decimal (model of Python `str(n)` / f-string
interpolation of an int). -/
def natToStr (n : Nat) : String :=
  String.mk (natCharsAux (n + 1) n)

/-- UTF-8 encoding of one scalar value (standard 1–4 byte cases). -/
def charUtf8 (c : Char) : Bytes :=
  let n := c.toNat
  if n < 128 then [n]
  else if n < 2048 then [192 + n / 64, 128 + n % 64]
  else if n < 65536 then [224 + n / 4096, 128 + n / 64 % 64, 128 + n % 64]
  else [240 + n / 262144, 128 + n / 4096 % 64, 128 + n / 64 % 64, 128 + n % 64]

/-- Model of Python writing a `str` to a file opened in text mode with
UTF-8 encoding. -/
def utf8Bytes (s : String) : Bytes :=
  s.data.flatMap charUtf8

/-! ### Python path helpers

Models of the `pathlib` / `os.path` operations the sources use. -/

/-- `pathlib.PurePosixPath(p).name`: last path component after dropping
empty and bare-dot segments. -/
def pyName (p : String) : String :=
  let segs := (splitChar '/' p.data).filter (fun s => !s.isEmpty && s != ['.'])
  String.mk (segs.getLastD [])

/-- Suffix of a bare file name: `name[i:]` for the last dot index `i` when
`0 < i < len(name) - 1`-style conditions hold (CPython `pathlib` rule:
there must be a character before the last dot and at least one after). -/
def suffixChars (name : List Char) : List Char :=
  let parts := splitChar '.' name
  match parts with
  | [] => []
  | [_] => []
  | _ =>
    let last := parts.getLastD []
    let rest := joinIntercalate '.' parts.dropLast
    if !rest.isEmpty && !last.isEmpty then '.' :: last else []

/-- `pathlib.PurePosixPath(p).suffix`. -/
def pySuffix (p : String) : String :=
  String.mk (suffixChars (pyName p).data)

/-- `pathlib.PurePosixPath(p).stem`: name with its suffix removed. -/
def pyStem (p : String) : String :=
  let n := (pyName p).data
  String.mk (n.take (n.length - (pySuffix p).data.length))

/-- `os.path.basename(p)`: the part after the last slash (no component
normalization, unlike `pathlib`). -/
def pyBasename (p : String) : String :=
  String.mk ((splitChar '/' p.data).getLastD [])

/-- `os.path.normpath` on an absolute POSIX path: drop empty and `.`
segments, resolve `..` against the stack (at the root, `..` is dropped).
The POSIX double-leading-slash corner case is not modelled. -/
def pyNormpath (p : String) : String :=
  let comps := (splitChar '/' p.data).filter (fun s => !s.isEmpty && s != ['.'])
  let stack := comps.foldl
    (fun st c => if c == ['.', '.'] then st.dropLast else st ++ [c]) []
  String.mk ('/' :: joinIntercalate '/' stack)

/-- `os.path.abspath(p)` for a process whose current working directory is
`cwd`: join relative paths onto `cwd`, then normalize. -/
def pyAbspath (cwd p : String) : String :=
  if strStartsWith p "/" then pyNormpath p else pyNormpath (cwd ++ "/" ++ p)

/-- `pathlib.PurePosixPath(p).with_suffix(ext)`: replace (or append, when
absent) the final component's suffix. -/
def pyWithSuffix (p ext : String) : String :=
  String.mk (p.data.take (p.data.length - (pySuffix p).data.length)) ++ ext

/-! ### Base64 decoding

Model of `base64.b64decode(s)` with default `validate=False`: characters
outside the base64 alphabet are discarded, then the remaining data/padding
shape must be a whole number of groups (otherwise `binascii.Error` is
raised; the Python error text varies by version and is modelled coarsely). -/

/-- Value of a base64 alphabet character, `none` outside the alphabet. -/
def b64Val (c : Char) : Option Nat :=
  if 'A' ≤ c && c ≤ 'Z' then some (c.toNat - 65)
  else if 'a' ≤ c && c ≤ 'z' then some (c.toNat - 71)
  else if '0' ≤ c && c ≤ '9' then some (c.toNat + 4)
  else if c == '+' then some 62
  else if c == '/' then some 63
  else none

/-- Reassemble bytes from 6-bit values, four values to three bytes, with
the standard 2- and 3-value trailing groups. -/
def decodeGroups : List Nat → Bytes
  | a :: b :: c :: d :: rest =>
    (a * 4 + b / 16) :: ((b % 16) * 16 + c / 4) :: ((c % 4) * 64 + d) :: decodeGroups rest
  | [a, b] => [a * 4 + b / 16]
  | [a, b, c] => [a * 4 + b / 16, (b % 16) * 16 + c / 4]
  | _ => []

/-- `base64.b64decode` (non-validating): returns the decoded bytes or a
decoding error. -/
def pyB64Decode (s : String) : Except String Bytes :=
  let kept := s.data.filter (fun c => (b64Val c).isSome || c == '=')
  let dataCs := kept.filter (fun c => c != '=')
  let pad := (kept.filter (fun c => c == '=')).length
  let vals := dataCs.map (fun c => (b64Val c).getD 0)
  let r := dataCs.length % 4
  if r == 0 && pad == 0 then Except.ok (decodeGroups vals)
  else if r == 2 && pad == 2 then Except.ok (decodeGroups vals)
  else if r == 3 && pad == 1 then Except.ok (decodeGroups vals)
  else Except.error "Invalid base64-encoded string"

/-! ### Filesystem model

A flat association of absolute paths to file bytes plus a creation time.
Directories are implicit (`os.makedirs` is a no-op on this model); all
modelled files are readable. -/

/-- One regular file. -/
structure FileEntry where
  path : String
  content : Bytes
  ctime : Nat
deriving DecidableEq, Repr

/-- The filesystem state. -/
abbrev FS := List FileEntry

/-- `os.path.exists` restricted to regular files. -/
def fileExists (fs : FS) (p : String) : Bool :=
  fs.any (fun e => e.path == p)

/-- Bytes stored at `p` (empty when absent; callers guard on existence). -/
def readFile (fs : FS) (p : String) : Bytes :=
  ((fs.find? (fun e => e.path == p)).map (fun e => e.content)).getD []

/-- `os.remove p` (also models `Path.unlink`): drop every entry at `p`. -/
def removeFile (fs : FS) (p : String) : FS :=
  fs.filter (fun e => !(e.path == p))

/-- `open(p, "wb").write(content)`: create or overwrite the file at `p`. -/
def writeFile (fs : FS) (p : String) (content : Bytes) (now : Nat) : FS :=
  ⟨p, content, now⟩ :: removeFile fs p

/-! ### Python exceptions -/

/-- The exceptions the modelled code can raise across an operation
boundary. -/
inductive PyExn where
  | fileNotFound (msg : String)
  | backendError (msg : String)
deriving DecidableEq, Repr

/-- Final filesystem state of a run, for either outcome (errors carry the
state at raise time). -/
def resFS (r : Except (PyExn × FS) (String × FS)) : FS :=
  match r with
  | Except.ok (_, fs) => fs
  | Except.error (_, fs) => fs

/-- Whether a run returned normally. -/
def isOkE {e a : Type} (r : Except e a) : Bool :=
  match r with
  | Except.ok _ => true
  | Except.error _ => false

/-! ### improved_mcp_server.py

The hardened converter: extension/size validation, uuid-prefixed staging
under a fresh per-process temp root, catch-all error handling, and the
administrative sweep. The source file's status-prefix literals are
mojibake-damaged in the repository; the intended check/cross marks are
used here. `', '.join(ALLOWED_EXTENSIONS)` iterates a Python set in an
unspecified order; the model fixes the order of the source literal. -/

/-- `ALLOWED_EXTENSIONS` (improved_mcp_server.py line 17). -/
def ALLOWED_EXTENSIONS : List String :=
  [".pdf", ".docx", ".doc", ".txt", ".html", ".xlsx", ".pptx"]

/-- `MAX_FILE_SIZE = 50 * 1024 * 1024` (line 18). -/
def MAX_FILE_SIZE : Nat := 50 * 1024 * 1024

/-- `tempfile.mkdtemp(prefix="mcp_converter_")` (line 21): a fresh unique
per-process root, modelled as a fixed representative. -/
def TEMP_BASE : String := "/tmp/mcp_converter_k3q9x2"

/-- `UPLOAD_DIR` (line 22): the input staging root. -/
def UPLOAD_DIR : String := TEMP_BASE ++ "/uploads"

/-- `OUTPUT_DIR` (line 23): the output artifact root. -/
def OUTPUT_DIR : String := TEMP_BASE ++ "/outputs"

/-- Per-request process context for improved_mcp_server operations:
the fresh `uuid4().hex[:8]` token drawn by the request, the clock, the
server's working directory and the wrapped MarkItDown backend. The
backend is modelled as a function of the staged bytes (determinism in
content, the abstraction the spec assumes), failing with the message of
the exception it would raise. -/
structure Env where
  token : String
  now : Nat
  cwd : String
  backend : Bytes → Except String String

/-- `validate_file_content` (lines 30–45): extension membership first,
then the size bound; pure. The `try` around the body is dead in this
model since no modelled operation raises. -/
def validate_file_content (filename : String) (content_size : Nat) : Bool × String :=
  if !(ALLOWED_EXTENSIONS.contains (strToLower (pySuffix filename))) then
    (false, "File type not supported. Allowed: " ++ joinComma ALLOWED_EXTENSIONS)
  else if content_size > MAX_FILE_SIZE then
    (false, "File too large. Maximum size: " ++ natToStr (MAX_FILE_SIZE / (1024 * 1024)) ++ "MB")
  else
    (true, "Valid")

/-- `save_uploaded_file` (lines 47–57): compose `token ++ "_" ++ name`,
write the bytes under `UPLOAD_DIR`, return the staged path. -/
def save_uploaded_file (env : Env) (filename : String) (content : Bytes) (fs : FS) : String × FS :=
  let safe_filename := env.token ++ "_" ++ pyName filename
  let file_path := UPLOAD_DIR ++ "/" ++ safe_filename
  (file_path, writeFile fs file_path content env.now)

/-- `convert_file_from_base64` (lines 59–105): decode, validate, stage,
convert; the `finally` block removes the staged file on every exit path,
and the catch-all `except` turns a backend failure into a formatted
message, so the operation always returns a string. -/
def convert_file_from_base64 (env : Env) (fs : FS) (filename file_content_base64 : String) :
    String × FS :=
  match pyB64Decode file_content_base64 with
  | Except.error e => ("❌ Invalid base64 content: " ++ e, fs)
  | Except.ok file_content =>
    let v := validate_file_content filename file_content.length
    if !v.1 then
      ("❌ Error: " ++ v.2, fs)
    else
      let staged := save_uploaded_file env filename file_content fs
      match env.backend file_content with
      | Except.ok text =>
        ("✅ Conversion successful!\n\n--- MARKDOWN CONTENT ---\n" ++ text,
         removeFile staged.2 staged.1)
      | Except.error e =>
        ("❌ Conversion failed: " ++ e, removeFile staged.2 staged.1)

/-- `convert_file_from_path` (lines 107–160): allow-list check on the
normalized absolute path, existence/readability check (modelled files are
all readable), validation, conversion, uniquified output write; the
catch-all `except` makes every failure a formatted message. -/
def convert_file_from_path (env : Env) (fs : FS) (file_path : String)
    (output_name : Option String) : String × FS :=
  let abs_path := pyAbspath env.cwd file_path
  if !(strStartsWith abs_path "/tmp/" || strStartsWith abs_path "/shared/") then
    ("❌ Access denied: File must be in /tmp/ or /shared/ directory", fs)
  else if !(fileExists fs file_path) then
    ("❌ File not accessible: " ++ file_path, fs)
  else
    let content := readFile fs file_path
    let filename := pyBasename file_path
    let v := validate_file_content filename content.length
    if !v.1 then
      ("❌ Error: " ++ v.2, fs)
    else
      match env.backend content with
      | Except.error e => ("❌ Conversion failed: " ++ e, fs)
      | Except.ok text =>
        let output_filename :=
          (match output_name with
           | some n => n
           | none => pyStem file_path) ++ "_" ++ env.token ++ ".md"
        let output_path := OUTPUT_DIR ++ "/" ++ output_filename
        ("✅ Conversion successful! Output saved to: " ++ output_path,
         writeFile fs output_path (utf8Bytes text) env.now)

/-- Files currently under the output root. -/
def outputFilesUnder (fs : FS) : List FileEntry :=
  fs.filter (fun e => strStartsWith e.path (OUTPUT_DIR ++ "/"))

/-- `cleanup_old_files` (lines 192–206). The loop body compares
`os.path.getctime(file_path) < (os.time.time() - 3600)`; the `os` module
has no attribute `time`, so the first file reached raises
`AttributeError` (Python renders the message with quotes around `os` and
`time`), which the handler turns into the failure string with zero files
removed. Only an empty output area completes the walk, reporting count 0. -/
def cleanup_old_files (fs : FS) : String × FS :=
  if (outputFilesUnder fs).isEmpty then
    ("✅ Cleaned up " ++ natToStr 0 ++ " old files", fs)
  else
    ("❌ Cleanup failed: module os has no attribute time", fs)

namespace Server

/-! ### server.py

The docling-based converter: `convert_file_to_markdown` raises
`FileNotFoundError` for missing inputs, selects docling (with OCR) for
`.pdf` and MarkItDown otherwise, and lets a backend exception propagate;
`convert_file_content_to_markdown` stages the payload (falling back to
a text write when base64 decoding fails) and unlinks the staged input
only after a successful conversion. -/

/-- Process context for server.py: the two backends, each modelled as a
function of the staged bytes (docling additionally takes its `do_ocr`
pipeline flag), plus the clock. -/
structure SEnv where
  docling : Bool → Bytes → Except String String
  markitdown : Bytes → Except String String
  now : Nat

/-- `convert_file_to_markdown` (server.py lines 13–47). Exceptions carry
the filesystem state at raise time. -/
def convert_file_to_markdown (env : SEnv) (fs : FS) (file_path : String) :
    Except (PyExn × FS) (String × FS) :=
  if !(fileExists fs file_path) then
    Except.error (PyExn.fileNotFound ("File not found: " ++ file_path), fs)
  else
    let content := readFile fs file_path
    let conv :=
      if strToLower (pySuffix file_path) == ".pdf" then env.docling true content
      else env.markitdown content
    match conv with
    | Except.error e => Except.error (PyExn.backendError e, fs)
    | Except.ok md_text =>
      let output_path := pyWithSuffix file_path ".md"
      Except.ok
        ("File converted successfully. Markdown saved to: " ++ output_path ++
           "\n\nContent:\n" ++ md_text,
         writeFile fs output_path (utf8Bytes md_text) env.now)

/-- `convert_file_content_to_markdown` (server.py lines 50–91): write the
decoded payload (or, when decoding fails, the payload text) to
`output_dir / filename`, convert via `convert_file_to_markdown` — with no
surrounding handler, so its exceptions propagate and skip the unlink —
then remove the staged input and return the result. -/
def convert_file_content_to_markdown (env : SEnv) (fs : FS)
    (content filename output_dir : String) : Except (PyExn × FS) (String × FS) :=
  let input_path := output_dir ++ "/" ++ filename
  let fs1 :=
    match pyB64Decode content with
    | Except.ok decoded => writeFile fs input_path decoded env.now
    | Except.error _ => writeFile fs input_path (utf8Bytes content) env.now
  match convert_file_to_markdown env fs1 input_path with
  | Except.error ef => Except.error ef
  | Except.ok r => Except.ok (r.1, removeFile r.2 input_path)

end Server

namespace McpTest

/-! ### mcp_test.py

The FastAPI/FastMCP hybrid. Only the path-based tool and its helper are
modelled (the claims cite its unguarded `raise FileNotFoundError`). -/

/-- Process context: the process-global `MarkItDown(enable_plugins=True)`
converter, as a function of the file bytes. -/
structure TEnv where
  backend : Bytes → Except String String

/-- `convert_file_to_md` (mcp_test.py lines 33–39): wrap a backend
exception in a new `Exception` naming the file, re-raised. -/
def convert_file_to_md (env : TEnv) (fs : FS) (file_path filename : String) :
    Except (PyExn × FS) String :=
  match env.backend (readFile fs file_path) with
  | Except.ok t => Except.ok t
  | Except.error e =>
    Except.error (PyExn.backendError ("Conversion error for " ++ filename ++ ": " ++ e), fs)

/-- `convert_file_from_path` (mcp_test.py lines 44–61): missing files
raise `FileNotFoundError` with no handler on the tool boundary. -/
def convert_file_from_path (env : TEnv) (fs : FS) (file_path : String) :
    Except (PyExn × FS) (String × FS) :=
  if !(fileExists fs file_path) then
    Except.error (PyExn.fileNotFound ("File not found: " ++ file_path), fs)
  else
    match convert_file_to_md env fs file_path (pyBasename file_path) with
    | Except.error ef => Except.error ef
    | Except.ok markdown =>
      Except.ok ("# Converted: " ++ pyBasename file_path ++ "\n\n" ++ markdown, fs)

end McpTest

namespace GitServer

/-! ### git_server.py

The folder walker: convert every regular file of a directory with
MarkItDown, collecting converted and skipped names, and report a summary.
The directory listing (taken after `markdown_output` is created, which is
why that subfolder shows up as a non-file entry) is modelled as an
explicit entry list; the backend takes the entry name (carrying the
extension MarkItDown sniffs) and the file bytes. -/

/-- One `os.listdir` entry with its `os.path.isfile` status and bytes. -/
structure DirEntry where
  name : String
  isFile : Bool
  content : Bytes
deriving DecidableEq, Repr

/-- `os.path.splitext(name)[0]` for a bare listing name: everything up to
the last dot, except that dots leading the name never start an extension. -/
def pySplitextStem (name : String) : String :=
  let cs := name.data
  let lead := (cs.takeWhile (fun c => c == '.')).length
  match cs.reverse.findIdx? (fun c => c == '.') with
  | none => name
  | some j =>
    let i := cs.length - 1 - j
    if lead < i then String.mk (cs.take i) else name

/-- The `for filename in os.listdir(...)` loop body of `convert_folder`
(git_server.py lines 26–38), in listing order: non-files are ignored, a
successful conversion appends the name to `processed` and records the
output file `stem ++ ".md"`, an exception appends `name (message)` to
`skipped`. Returns `(processed, skipped, outputs)`. -/
def processEntries (backend : String → Bytes → Except String String) :
    List DirEntry → List String × List String × List (String × String)
  | [] => ([], [], [])
  | e :: rest =>
    let r := processEntries backend rest
    if e.isFile then
      match backend e.name e.content with
      | Except.ok text =>
        (e.name :: r.1, r.2.1, (pySplitextStem e.name ++ ".md", text) :: r.2.2)
      | Except.error m =>
        (r.1, (e.name ++ " (" ++ m ++ ")") :: r.2.1, r.2.2)
    else r

/-- `convert_folder` (git_server.py lines 8–43): `folder_path` is the
already-absolutized folder, `isdir` the `os.path.isdir` answer, `entries`
the listing. Produces the summary string of lines 40–43. -/
def convert_folder (backend : String → Bytes → Except String String)
    (folder_path : String) (isdir : Bool) (entries : List DirEntry) : String :=
  if !isdir then
    "❌ Path not found or not a folder: " ++ folder_path
  else
    let output_dir := folder_path ++ "/markdown_output"
    let r := processEntries backend entries
    let summary :=
      "✅ Converted " ++ natToStr r.1.length ++ " files. Markdown saved to: " ++
        output_dir ++ "\n"
    if r.2.1.isEmpty then summary
    else summary ++ "⚠️ Skipped " ++ natToStr r.2.1.length ++ " files: " ++ joinComma r.2.1

end GitServer

/-- The tail of `Server.convert_file_to_markdown` downstream of the
backend choice (error wrapping, output write, success message), used to
state the backend-selection property with the selection factored out. -/
def Server.convertReturn (fs : FS) (file_path : String) (now : Nat)
    (conv : Except String String) : Except (PyExn × FS) (String × FS) :=
  match conv with
  | Except.error e => Except.error (PyExn.backendError e, fs)
  | Except.ok md_text =>
    let output_path := pyWithSuffix file_path ".md"
    Except.ok
      ("File converted successfully. Markdown saved to: " ++ output_path ++
         "\n\nContent:\n" ++ md_text,
       writeFile fs output_path (utf8Bytes md_text) now)

/-- A concrete request context whose backend always succeeds. -/
def envA : Env := ⟨"deadbeef", 7, "/srv", fun _ => Except.ok "OUT"⟩

/-- A concrete server.py context whose backends always succeed. -/
def senvOk : Server.SEnv := ⟨fun _ _ => Except.ok "MD", fun _ => Except.ok "MD", 0⟩

/-- A concrete server.py context whose backends always raise. -/
def senvBoom : Server.SEnv := ⟨fun _ _ => Except.error "boom", fun _ => Except.error "boom", 0⟩

/-- A concrete mcp_test.py context with a succeeding converter. -/
def tenvOk : McpTest.TEnv := ⟨fun _ => Except.ok "md"⟩

/-- A base64 payload of 69,905,068 letters A: it decodes to 52,428,801
zero bytes, one byte over `MAX_FILE_SIZE`. -/
def bigA : String := String.mk (List.replicate (4 * 17476267) 'A')

/-- A filesystem holding one uppercase-suffixed PDF. -/
def fsPdf : FS := [⟨"/docs/a.PDF", [1, 2], 0⟩]

/-! ## Helper lemmas -/

/-- String append acts as append on the character lists. -/
theorem strData_append (a b : String) : (a ++ b).data = a.data ++ b.data := rfl

/-- A string starts with itself in front of any continuation. -/
theorem strStartsWith_append_left (a b : String) : strStartsWith (a ++ b) a = true := by
  simp [strStartsWith, strData_append, List.isPrefixOf_iff_prefix]

/-- Extending a string on the right preserves any of its prefixes. -/
theorem strStartsWith_append_of (pre a b : String) (h : strStartsWith a pre = true) :
    strStartsWith (a ++ b) pre = true := by
  simp [strStartsWith, strData_append, List.isPrefixOf_iff_prefix] at h ⊢
  exact h.trans (List.prefix_append _ _)

/-- Removing a path removes it: the file is absent afterwards. -/
theorem fileExists_removeFile_self (fs : FS) (p : String) :
    fileExists (removeFile fs p) p = false := by
  induction fs with
  | nil => rfl
  | cons e rest ih =>
    by_cases h : e.path = p <;> simp_all [fileExists, removeFile, List.filter_cons]

/-- A just-written path exists. -/
theorem fileExists_writeFile_self (fs : FS) (p : String) (c : Bytes) (t : Nat) :
    fileExists (writeFile fs p c t) p = true := by
  simp [fileExists, writeFile]

/-- Four-value groups of zero sextets decode to three-byte groups of zero
bytes. -/
theorem decodeGroups_replicate_zero (k : Nat) :
    decodeGroups (List.replicate (4 * k) 0) = List.replicate (3 * k) 0 := by
  induction k with
  | zero => rfl
  | succ n ih =>
    have h4 : 4 * (n + 1) = 4 + 4 * n := by ring
    have h3 : 3 * (n + 1) = 3 + 3 * n := by ring
    rw [h4, h3, List.replicate_add, List.replicate_add]
    show decodeGroups (0 :: 0 :: 0 :: 0 :: List.replicate (4 * n) 0) =
      0 :: 0 :: 0 :: List.replicate (3 * n) 0
    rw [decodeGroups]
    simp [ih]

/-- Decoding `4k` letters A yields `3k` zero bytes. -/
theorem pyB64Decode_replicateA (k : Nat) :
    pyB64Decode (String.mk (List.replicate (4 * k) 'A')) =
      Except.ok (List.replicate (3 * k) 0) := by
  have hA : ((b64Val 'A').isSome || ('A' == '=')) = true := by decide
  have hD : ('A' != '=') = true := by decide
  have hE : ('A' == '=') = false := by decide
  have hV : (b64Val 'A').getD 0 = 0 := by decide
  have hkept : List.filter (fun c => (b64Val c).isSome || c == '=')
      (List.replicate (4 * k) 'A') = List.replicate (4 * k) 'A' := by
    rw [List.filter_replicate, if_pos hA]
  have hdata : List.filter (fun c => c != '=')
      (List.replicate (4 * k) 'A') = List.replicate (4 * k) 'A' := by
    rw [List.filter_replicate, if_pos hD]
  have hpad : List.filter (fun c => c == '=')
      (List.replicate (4 * k) 'A') = ([] : List Char) := by
    rw [List.filter_replicate, if_neg (by simp [hE])]
  have hmap : List.map (fun c => (b64Val c).getD 0)
      (List.replicate (4 * k) 'A') = List.replicate (4 * k) 0 := by
    rw [List.map_replicate, hV]
  unfold pyB64Decode
  dsimp only
  rw [hkept, hdata, hpad, hmap]
  simp [Nat.mul_mod_right, decodeGroups_replicate_zero]

/-- General rejection shape: a decodable payload with a disallowed
extension makes `convert_file_from_base64` return the unsupported-type
failure and leave the filesystem unchanged. -/
theorem convert_unsupported (env : Env) (fs : FS) (filename s : String) (bs : Bytes)
    (h1 : pyB64Decode s = Except.ok bs)
    (h2 : ALLOWED_EXTENSIONS.contains (strToLower (pySuffix filename)) = false) :
    convert_file_from_base64 env fs filename s =
      ("❌ Error: " ++ ("File type not supported. Allowed: " ++ joinComma ALLOWED_EXTENSIONS),
       fs) := by
  unfold convert_file_from_base64 validate_file_content
  rw [h1]
  have h2m : ¬ strToLower (pySuffix filename) ∈ ALLOWED_EXTENSIONS := by
    simpa using h2
  simp [h2m]

/-! ## Claim theorems -/

/-- Claim C2 (code_bug evidence): on an output area holding artifacts aged
30, 61 and 120 minutes (creation times 8200, 6340 and 2800 at clock time
10000), the sweep is claimed to remove exactly the two artifacts older
than the 60-minute window and report count 2; instead `cleanup_old_files`
trips over `os.time.time()` (`os` has no attribute `time`), removes
nothing, and returns the caught-AttributeError failure message. -/
theorem c2_sweep_failing_input :
    cleanup_old_files
        [⟨OUTPUT_DIR ++ "/a.md", [1], 8200⟩,
         ⟨OUTPUT_DIR ++ "/b.md", [2], 6340⟩,
         ⟨OUTPUT_DIR ++ "/c.md", [3], 2800⟩] =
      ("❌ Cleanup failed: module os has no attribute time",
       [⟨OUTPUT_DIR ++ "/a.md", [1], 8200⟩,
        ⟨OUTPUT_DIR ++ "/b.md", [2], 6340⟩,
        ⟨OUTPUT_DIR ++ "/c.md", [3], 2800⟩]) := by
  decide

/-- Claim C1 (counterexample): an encoded-content request through
server.py's `convert_file_content_to_markdown` that reaches staging and
then hits a backend conversion failure exits by exception with the staged
input file still present under the staging directory — the unlink after
the conversion call never runs. -/
theorem c1_counterexample :
    Server.convert_file_content_to_markdown senvBoom [] "QUJD" "a.txt" "/tmp" =
      Except.error (PyExn.backendError "boom", [⟨"/tmp/a.txt", [65, 66, 67], 0⟩]) ∧
    fileExists
      (resFS (Server.convert_file_content_to_markdown senvBoom [] "QUJD" "a.txt" "/tmp"))
      "/tmp/a.txt" = true :=
  ⟨rfl, by decide⟩

/-- Claim C3 (counterexample): mcp_test.py's caller-facing
`convert_file_from_path` raises `FileNotFoundError` for a missing path
instead of returning a uniform failure result — an unhandled exception
propagates to the caller. -/
theorem c3_counterexample :
    McpTest.convert_file_from_path tenvOk [] "/tmp/missing.txt" =
      Except.error (PyExn.fileNotFound "File not found: /tmp/missing.txt", []) ∧
    isOkE (McpTest.convert_file_from_path tenvOk [] "/tmp/missing.txt") = false :=
  ⟨rfl, rfl⟩

/-- Claim C5 (counterexample): a payload that fails base64 decoding does
not make server.py's `convert_file_content_to_markdown` return an
invalid-encoding failure with no staging; the code falls back to writing
the payload as text, so the staging write happens (visible here in the
filesystem carried by the propagated backend error). -/
theorem c5_counterexample :
    pyB64Decode "aaaaa" = Except.error "Invalid base64-encoded string" ∧
    Server.convert_file_content_to_markdown senvBoom [] "aaaaa" "a.txt" "/tmp" =
      Except.error (PyExn.backendError "boom", [⟨"/tmp/a.txt", [97, 97, 97, 97, 97], 0⟩]) ∧
    fileExists
      (resFS (Server.convert_file_content_to_markdown senvBoom [] "aaaaa" "a.txt" "/tmp"))
      "/tmp/a.txt" = true :=
  ⟨rfl, rfl, by decide⟩

/-- Claim C1 (amended): for improved_mcp_server's
`convert_file_from_base64`, every request that reaches staging (payload
decodes and validates) ends with the staged input absent from the staging
area, on success and on backend failure alike; for server.py's
`convert_file_content_to_markdown` the staged input is absent whenever
the call returns normally — a backend error instead propagates before the
unlink (see the counterexample). -/
theorem c1_staged_release :
    (∀ (env : Env) (fs : FS) (filename s : String) (bs : Bytes),
        pyB64Decode s = Except.ok bs →
        (validate_file_content filename bs.length).1 = true →
        fileExists (convert_file_from_base64 env fs filename s).2
          (save_uploaded_file env filename bs fs).1 = false) ∧
    (∀ (env : Server.SEnv) (fs : FS) (content filename output_dir : String),
        isOkE (Server.convert_file_content_to_markdown env fs content filename output_dir) =
          true →
        fileExists
          (resFS (Server.convert_file_content_to_markdown env fs content filename output_dir))
          (output_dir ++ "/" ++ filename) = false) := by
  constructor
  · intro env fs filename s bs h1 h2
    unfold convert_file_from_base64
    rw [h1]
    dsimp only
    rw [h2]
    cases env.backend bs <;> simp [fileExists_removeFile_self]
  · intro env fs content filename output_dir h
    unfold Server.convert_file_content_to_markdown at h ⊢
    dsimp only at h ⊢
    split
    · rename_i ef heq
      rw [heq] at h
      simp [isOkE] at h
    · rename_i r heq
      simp [resFS, fileExists_removeFile_self]

/-- Witness for C1 at concrete inputs on both conversion paths. -/
theorem c1_staged_release_witness :
    pyB64Decode "QUJD" = Except.ok [65, 66, 67] ∧
    (validate_file_content "a.txt" (([65, 66, 67] : Bytes)).length).1 = true ∧
    fileExists (convert_file_from_base64 envA [] "a.txt" "QUJD").2
      (save_uploaded_file envA "a.txt" [65, 66, 67] []).1 = false ∧
    isOkE (Server.convert_file_content_to_markdown senvOk [] "QUJD" "a.txt" "/tmp") = true ∧
    fileExists
      (resFS (Server.convert_file_content_to_markdown senvOk [] "QUJD" "a.txt" "/tmp"))
      ("/tmp" ++ "/" ++ "a.txt") = false :=
  ⟨rfl, by decide,
   c1_staged_release.1 envA [] "a.txt" "QUJD" [65, 66, 67] rfl (by decide),
   by decide,
   c1_staged_release.2 senvOk [] "QUJD" "a.txt" "/tmp" (by decide)⟩

/-- All-branches shape fact: a failure message starting with the cross
mark keeps that prefix under any right extension, and so satisfies the
uniform success-or-failure result shape. -/
theorem orStarts_of_cross (a b : String) (h : strStartsWith a "❌" = true) :
    (strStartsWith (a ++ b) "✅" || strStartsWith (a ++ b) "❌") = true := by
  rw [strStartsWith_append_of "❌" a b h, Bool.or_true]

/-- Same as `orStarts_of_cross` for the success check mark. -/
theorem orStarts_of_check (a b : String) (h : strStartsWith a "✅" = true) :
    (strStartsWith (a ++ b) "✅" || strStartsWith (a ++ b) "❌") = true := by
  rw [strStartsWith_append_of "✅" a b h, Bool.true_or]

/-- Claim C3 (amended): the improved_mcp_server orchestration boundary
catches every failure — for every input, both caller-facing conversion
operations return a uniformly shaped result string (success-marked or
failure-marked, never an exception); the path-based operations of
server.py and mcp_test.py instead let `FileNotFoundError` propagate (see
the counterexample). -/
theorem c3_uniform_results (env : Env) (fs : FS) (filename s p : String)
    (oname : Option String) :
    (strStartsWith (convert_file_from_base64 env fs filename s).1 "✅" ||
      strStartsWith (convert_file_from_base64 env fs filename s).1 "❌") = true ∧
    (strStartsWith (convert_file_from_path env fs p oname).1 "✅" ||
      strStartsWith (convert_file_from_path env fs p oname).1 "❌") = true := by
  constructor
  · unfold convert_file_from_base64
    dsimp only
    split
    · exact orStarts_of_cross _ _ (by decide)
    · split
      · exact orStarts_of_cross _ _ (by decide)
      · split
        · exact orStarts_of_check _ _ (by decide)
        · exact orStarts_of_cross _ _ (by decide)
  · unfold convert_file_from_path
    dsimp only
    split
    · dsimp only
      decide
    · split
      · exact orStarts_of_cross _ _ (by decide)
      · split
        · exact orStarts_of_cross _ _ (by decide)
        · split
          · exact orStarts_of_cross _ _ (by decide)
          · exact orStarts_of_check _ _ (by decide)

/-- Claim C4 (confirmed): a path-based request whose normalized absolute
path lies outside the allow-listed roots `/tmp/` and `/shared/` yields
the access-denied failure with the filesystem unchanged; the equality
holds for every environment and every filesystem, so neither the file's
content nor the backend is ever consulted. -/
theorem c4_access_denied (env : Env) (fs : FS) (file_path : String)
    (output_name : Option String)
    (h1 : strStartsWith (pyAbspath env.cwd file_path) "/tmp/" = false)
    (h2 : strStartsWith (pyAbspath env.cwd file_path) "/shared/" = false) :
    convert_file_from_path env fs file_path output_name =
      ("❌ Access denied: File must be in /tmp/ or /shared/ directory", fs) := by
  unfold convert_file_from_path
  simp [h1, h2]

/-- Witness for C4 at `/etc/passwd`. -/
theorem c4_access_denied_witness :
    strStartsWith (pyAbspath envA.cwd "/etc/passwd") "/tmp/" = false ∧
    strStartsWith (pyAbspath envA.cwd "/etc/passwd") "/shared/" = false ∧
    convert_file_from_path envA [] "/etc/passwd" none =
      ("❌ Access denied: File must be in /tmp/ or /shared/ directory", []) :=
  ⟨by decide, by decide,
   c4_access_denied envA [] "/etc/passwd" none (by decide) (by decide)⟩

/-- Claim C5 (amended): in improved_mcp_server's
`convert_file_from_base64`, a payload that fails base64 decoding yields
the invalid-encoding failure immediately, with the filesystem untouched
(no staging, no mutation); server.py's fallback instead stages the
payload as text (see the counterexample). -/
theorem c5_decode_failure (env : Env) (fs : FS) (filename s m : String)
    (h : pyB64Decode s = Except.error m) :
    convert_file_from_base64 env fs filename s =
      ("❌ Invalid base64 content: " ++ m, fs) := by
  unfold convert_file_from_base64
  rw [h]

/-- Witness for C5 at the undecodable payload of five letters a. -/
theorem c5_decode_failure_witness :
    pyB64Decode "aaaaa" = Except.error "Invalid base64-encoded string" ∧
    convert_file_from_base64 envA [] "a.txt" "aaaaa" =
      ("❌ Invalid base64 content: " ++ "Invalid base64-encoded string", []) :=
  ⟨rfl, c5_decode_failure envA [] "a.txt" "aaaaa" "Invalid base64-encoded string" rfl⟩

/-- Claim C6 (confirmed): any filename whose lowercased extension is
outside the accepted set (including extensionless names, whose suffix is
empty) makes `convert_file_from_base64` return the failure naming the
unsupported type, with the filesystem unchanged — no writes. -/
theorem c6_unsupported_type (env : Env) (fs : FS) (filename s : String) (bs : Bytes)
    (h1 : pyB64Decode s = Except.ok bs)
    (h2 : ALLOWED_EXTENSIONS.contains (strToLower (pySuffix filename)) = false) :
    convert_file_from_base64 env fs filename s =
      ("❌ Error: " ++ ("File type not supported. Allowed: " ++ joinComma ALLOWED_EXTENSIONS),
       fs) := by
  exact convert_unsupported env fs filename s bs h1 h2

/-- Witness for C6 at a disallowed `.exe` name. -/
theorem c6_unsupported_type_witness :
    pyB64Decode "QUJD" = Except.ok [65, 66, 67] ∧
    ALLOWED_EXTENSIONS.contains (strToLower (pySuffix "evil.exe")) = false ∧
    convert_file_from_base64 envA [] "evil.exe" "QUJD" =
      ("❌ Error: " ++ ("File type not supported. Allowed: " ++ joinComma ALLOWED_EXTENSIONS),
       []) :=
  ⟨rfl, by decide,
   c6_unsupported_type envA [] "evil.exe" "QUJD" [65, 66, 67] rfl (by decide)⟩

/-- Claim C7 (counterexample): for an oversized payload carrying a
disallowed extension, the rejection happens before staging (filesystem
unchanged) but the failure message names the unsupported type and does
not report the configured limit — it contains no digit 5 at all —
because the extension check precedes the size check. -/
theorem c7_counterexample :
    pyB64Decode bigA = Except.ok (List.replicate (3 * 17476267) 0) ∧
    (List.replicate (3 * 17476267) (0 : Nat)).length > MAX_FILE_SIZE ∧
    convert_file_from_base64 envA [] "a.exe" bigA =
      ("❌ Error: " ++ ("File type not supported. Allowed: " ++ joinComma ALLOWED_EXTENSIONS),
       []) ∧
    strContainsChar
      ("❌ Error: " ++ ("File type not supported. Allowed: " ++ joinComma ALLOWED_EXTENSIONS))
      '5' = false := by
  have hb : pyB64Decode bigA = Except.ok (List.replicate (3 * 17476267) 0) :=
    pyB64Decode_replicateA 17476267
  refine ⟨hb, ?_, ?_, by decide⟩
  · rw [List.length_replicate]
    norm_num [MAX_FILE_SIZE]
  · exact convert_unsupported envA [] "a.exe" bigA (List.replicate (3 * 17476267) 0) hb
      (by decide)

/-- Claim C7 (amended): a payload whose decoded size exceeds
`MAX_FILE_SIZE` and whose extension is accepted is rejected before
staging — the filesystem is unchanged, so nothing appears under the
staging root — with the failure message reporting the configured 50MB
limit; when the extension is not accepted, the rejection (still before
staging) reports the unsupported type instead. -/
theorem c7_too_large (env : Env) (fs : FS) (filename s : String) (bs : Bytes)
    (h1 : pyB64Decode s = Except.ok bs)
    (h2 : ALLOWED_EXTENSIONS.contains (strToLower (pySuffix filename)) = true)
    (h3 : bs.length > MAX_FILE_SIZE) :
    convert_file_from_base64 env fs filename s =
      ("❌ Error: " ++ ("File too large. Maximum size: " ++ "50" ++ "MB"), fs) := by
  unfold convert_file_from_base64 validate_file_content
  rw [h1]
  have h50 : natToStr (MAX_FILE_SIZE / (1024 * 1024)) = "50" := by decide
  have h2m : strToLower (pySuffix filename) ∈ ALLOWED_EXTENSIONS := by
    simpa using h2
  simp [h2m, h3, h50]

/-- Witness for C7 at a 52,428,801-byte payload named `big.txt`. -/
theorem c7_too_large_witness :
    pyB64Decode bigA = Except.ok (List.replicate (3 * 17476267) 0) ∧
    ALLOWED_EXTENSIONS.contains (strToLower (pySuffix "big.txt")) = true ∧
    (List.replicate (3 * 17476267) (0 : Nat)).length > MAX_FILE_SIZE ∧
    convert_file_from_base64 envA [] "big.txt" bigA =
      ("❌ Error: " ++ ("File too large. Maximum size: " ++ "50" ++ "MB"), []) :=
  ⟨pyB64Decode_replicateA 17476267, by decide,
   by rw [List.length_replicate]; norm_num [MAX_FILE_SIZE],
   c7_too_large envA [] "big.txt" bigA (List.replicate (3 * 17476267) 0)
     (pyB64Decode_replicateA 17476267) (by decide)
     (by rw [List.length_replicate]; norm_num [MAX_FILE_SIZE])⟩

/-- Claim C8 (confirmed): in server.py, backend selection is a pure
function of the file extension — an extension lowercasing to `.pdf`
routes the conversion through the docling backend with OCR enabled, and
any other extension routes it through the MarkItDown backend, everything
downstream being identical. -/
theorem c8_backend_selection (env : Server.SEnv) (fs : FS) (p : String)
    (h : fileExists fs p = true) :
    (strToLower (pySuffix p) = ".pdf" →
       Server.convert_file_to_markdown env fs p =
         Server.convertReturn fs p env.now (env.docling true (readFile fs p))) ∧
    (strToLower (pySuffix p) ≠ ".pdf" →
       Server.convert_file_to_markdown env fs p =
         Server.convertReturn fs p env.now (env.markitdown (readFile fs p))) := by
  constructor
  · intro hp
    unfold Server.convert_file_to_markdown Server.convertReturn
    simp [h, hp]
  · intro hp
    unfold Server.convert_file_to_markdown Server.convertReturn
    simp [h, hp]

/-- Witness for C8 at an uppercase `.PDF` path. -/
theorem c8_backend_selection_witness :
    fileExists fsPdf "/docs/a.PDF" = true ∧
    strToLower (pySuffix "/docs/a.PDF") = ".pdf" ∧
    Server.convert_file_to_markdown senvOk fsPdf "/docs/a.PDF" =
      Server.convertReturn fsPdf "/docs/a.PDF" senvOk.now
        (senvOk.docling true (readFile fsPdf "/docs/a.PDF")) :=
  ⟨by decide, by decide,
   (c8_backend_selection senvOk fsPdf "/docs/a.PDF" (by decide)).1 (by decide)⟩

/-- Claim C9 (confirmed): two requests carrying the same filename and
content through the same (deterministic) backend produce the same result
text, while their staged names — a fresh eight-character unique token
prepended to the original basename — differ whenever the tokens differ. -/
theorem c9_same_output_distinct_staging (f : Bytes → Except String String)
    (t1 t2 : String) (n1 n2 : Nat) (w1 w2 : String) (fs1 fs2 : FS)
    (filename s : String) (bs : Bytes)
    (hne : t1 ≠ t2) (hl1 : t1.data.length = 8) (hl2 : t2.data.length = 8) :
    (convert_file_from_base64 ⟨t1, n1, w1, f⟩ fs1 filename s).1 =
      (convert_file_from_base64 ⟨t2, n2, w2, f⟩ fs2 filename s).1 ∧
    (save_uploaded_file ⟨t1, n1, w1, f⟩ filename bs fs1).1 ≠
      (save_uploaded_file ⟨t2, n2, w2, f⟩ filename bs fs2).1 := by
  constructor
  · unfold convert_file_from_base64
    cases pyB64Decode s with
    | error e => rfl
    | ok content =>
      dsimp only
      cases hv : (validate_file_content filename content.length).1
      · rfl
      · cases f content <;> rfl
  · intro heq
    apply hne
    unfold save_uploaded_file at heq
    dsimp only at heq
    have hd := congrArg String.data heq
    simp only [strData_append, List.append_assoc] at hd
    have h1 := List.append_cancel_left hd
    have h2 := List.append_cancel_left h1
    have h3 := List.append_inj_left h2 (by rw [hl1, hl2])
    exact String.ext h3

/-- Witness for C9 with tokens aaaaaaaa and bbbbbbbb. -/
theorem c9_same_output_distinct_staging_witness :
    ("aaaaaaaa" : String) ≠ "bbbbbbbb" ∧
    ("aaaaaaaa" : String).data.length = 8 ∧
    ("bbbbbbbb" : String).data.length = 8 ∧
    ((convert_file_from_base64 ⟨"aaaaaaaa", 1, "/srv", fun _ => Except.ok "OUT"⟩ []
        "doc.txt" "QUJD").1 =
      (convert_file_from_base64 ⟨"bbbbbbbb", 2, "/srv", fun _ => Except.ok "OUT"⟩ []
        "doc.txt" "QUJD").1 ∧
     (save_uploaded_file ⟨"aaaaaaaa", 1, "/srv", fun _ => Except.ok "OUT"⟩
        "doc.txt" [65, 66, 67] []).1 ≠
      (save_uploaded_file ⟨"bbbbbbbb", 2, "/srv", fun _ => Except.ok "OUT"⟩
        "doc.txt" [65, 66, 67] []).1) :=
  ⟨by decide, by decide, by decide,
   c9_same_output_distinct_staging (fun _ => Except.ok "OUT") "aaaaaaaa" "bbbbbbbb"
     1 2 "/srv" "/srv" [] [] "doc.txt" "QUJD" [65, 66, 67]
     (by decide) (by decide) (by decide)⟩

/-- Processed-files characterization: the loop of `convert_folder`
converts exactly the regular files on which the backend succeeds, in
listing order, independently of any failures among the other entries. -/
theorem processEntries_processed (backend : String → Bytes → Except String String)
    (entries : List GitServer.DirEntry) :
    (GitServer.processEntries backend entries).1 =
      (entries.filter (fun e => e.isFile && isOkE (backend e.name e.content))).map
        (fun e => e.name) := by
  induction entries with
  | nil => rfl
  | cons e rest ih =>
    unfold GitServer.processEntries
    dsimp only
    cases hf : e.isFile
    · simp [hf, List.filter_cons, ih]
    · cases hb : backend e.name e.content
      · simp [hf, hb, List.filter_cons, isOkE, ih]
      · simp [hf, hb, List.filter_cons, isOkE, ih]

/-- Skipped-files characterization: the loop of `convert_folder` skips
exactly the regular files on which the backend raises, tagging each with
its error message, independently of the other entries. -/
theorem processEntries_skipped (backend : String → Bytes → Except String String)
    (entries : List GitServer.DirEntry) :
    (GitServer.processEntries backend entries).2.1 =
      entries.filterMap (fun e =>
        if e.isFile then
          match backend e.name e.content with
          | Except.ok _ => none
          | Except.error m => some (e.name ++ " (" ++ m ++ ")")
        else none) := by
  induction entries with
  | nil => rfl
  | cons e rest ih =>
    unfold GitServer.processEntries
    dsimp only
    cases hf : e.isFile
    · simp [hf, List.filterMap_cons, ih]
    · cases hb : backend e.name e.content
      · simp [hf, hb, List.filterMap_cons, ih]
      · simp [hf, hb, List.filterMap_cons, ih]

/-- Claim C10 (confirmed): folder conversion handles each regular file
independently — the converted set is exactly the files on which the
backend succeeds and a failure only adds its own file to the skipped
list — and the returned summary reports the number of converted files
and, when any, lists the skipped ones with their errors. -/
theorem c10_folder_independence (backend : String → Bytes → Except String String)
    (folder_path : String) (entries : List GitServer.DirEntry) :
    (GitServer.processEntries backend entries).1 =
      (entries.filter (fun e => e.isFile && isOkE (backend e.name e.content))).map
        (fun e => e.name) ∧
    (GitServer.processEntries backend entries).2.1 =
      entries.filterMap (fun e =>
        if e.isFile then
          match backend e.name e.content with
          | Except.ok _ => none
          | Except.error m => some (e.name ++ " (" ++ m ++ ")")
        else none) ∧
    GitServer.convert_folder backend folder_path true entries =
      (let processed :=
        (entries.filter (fun e => e.isFile && isOkE (backend e.name e.content))).map
          (fun e => e.name)
       let skipped :=
        entries.filterMap (fun e =>
          if e.isFile then
            match backend e.name e.content with
            | Except.ok _ => none
            | Except.error m => some (e.name ++ " (" ++ m ++ ")")
          else none)
       let summary :=
        "✅ Converted " ++ natToStr processed.length ++ " files. Markdown saved to: " ++
          (folder_path ++ "/markdown_output") ++ "\n"
       if skipped.isEmpty then summary
       else summary ++ "⚠️ Skipped " ++ natToStr skipped.length ++ " files: " ++
         joinComma skipped) := by
  refine ⟨processEntries_processed backend entries, processEntries_skipped backend entries, ?_⟩
  unfold GitServer.convert_folder
  dsimp only
  rw [processEntries_processed backend entries, processEntries_skipped backend entries]
  simp

end MCP
